import Mathlib

/-!
Verification of the couchapi gateway (a CouchDB-to-MongoDB protocol
emulator) against its natural-language specification. The definitions
below are a shallow embedding of the document operations
(src/ops/create_update.rs, src/ops/delete.rs, src/ops/bulk.rs,
src/ops/get.rs, src/ops/mod.rs) and of the view pipeline builder
(src/ops/get.rs). External collaborators (the MongoDB driver behind the
Database trait of src/db.rs, the md5 crate, UUID generation, the HTTP
layer) are modelled as explicit parameters or as small documented
semantic models; everything else is translated directly from the source.
-/

namespace CouchApi

/-- JSON and BSON values as the gateway manipulates them. The source
passes serde_json values and converts them to BSON with bson::to_bson;
on the fragment the gateway touches (null, booleans, 64-bit integers,
strings, arrays, documents) that conversion is the identity, so a single
inductive models both. Numbers are modelled as integers: every pipeline
stage and key the claims involve parses to BSON Int64. Documents keep
insertion order, as the indexmap-backed bson Document does. -/
inductive Json where
  | null : Json
  | bool (b : Bool) : Json
  | int (n : Int) : Json
  | str (s : String) : Json
  | arr (elems : List Json) : Json
  | obj (fields : List (String × Json)) : Json
deriving Repr, Inhabited

mutual

/-- Structural equality of JSON values (serde and bson PartialEq). -/
def Json.beq : Json → Json → Bool
  | .null, .null => true
  | .bool a, .bool b => a == b
  | .int a, .int b => a == b
  | .str a, .str b => a == b
  | .arr xs, .arr ys => Json.beqList xs ys
  | .obj xs, .obj ys => Json.beqFields xs ys
  | _, _ => false

/-- Structural equality of JSON arrays. -/
def Json.beqList : List Json → List Json → Bool
  | [], [] => true
  | x :: xs, y :: ys => Json.beq x y && Json.beqList xs ys
  | _, _ => false

/-- Structural equality of JSON object field lists. -/
def Json.beqFields : List (String × Json) → List (String × Json) → Bool
  | [], [] => true
  | (k1, v1) :: xs, (k2, v2) :: ys => k1 == k2 && Json.beq v1 v2 && Json.beqFields xs ys
  | _, _ => false

end

instance : BEq Json := ⟨Json.beq⟩

/-- A BSON document: an insertion-ordered association list. -/
abbrev Doc := List (String × Json)

/-- Document field lookup (bson Document::get): first binding wins. -/
def dGet (d : Doc) (k : String) : Option Json :=
  match d.find? (fun kv => kv.1 == k) with
  | some kv => some kv.2
  | none => none

/-- Document::insert: replaces the value in place when the key already
exists, appends at the end otherwise (indexmap semantics). -/
def dInsert (d : Doc) (k : String) (v : Json) : Doc :=
  match d with
  | [] => [(k, v)]
  | kv :: rest => if kv.1 == k then (k, v) :: rest else kv :: dInsert rest k v

/-- Document::extend: repeated insert, left to right. -/
def dExtend (d : Doc) (e : Doc) : Doc :=
  e.foldl (fun acc kv => dInsert acc kv.1 kv.2) d

/-- serde_json Value::get: object member lookup, none on non-objects. -/
def jGet (v : Json) (k : String) : Option Json :=
  match v with
  | .obj fields => dGet fields k
  | _ => none

/-- The idiom value.get(k).and_then(as_str) from the source. -/
def jGetStr (v : Json) (k : String) : Option String :=
  match jGet v k with
  | some (.str s) => some s
  | _ => none

/-- Characters of the text in front of the first dash of a revision
string: Rust rev.split(the dash).next().unwrap(), which always yields
the (possibly empty) segment before the first dash. -/
def before_dash_chars : List Char → List Char
  | [] => []
  | c :: cs => if c == '-' then [] else c :: before_dash_chars cs

/-- The segment of a string before its first dash. -/
def before_dash (s : String) : String :=
  String.mk (before_dash_chars s.data)

/-- Rust str::parse for u64: an optional leading plus sign, then one or
more decimal digits, value below 2 ^ 64. Returns none where Rust
returns Err. -/
def parse_u64 (s : String) : Option Nat :=
  let cs := match s.data with
    | c :: cs2 => if c == '+' then cs2 else c :: cs2
    | [] => []
  if cs.isEmpty then none
  else if !(cs.all Char.isDigit) then none
  else
    let n := cs.foldl (fun acc c => acc * 10 + (c.toNat - 48)) 0
    if n < 2 ^ 64 then some n else none

/-- Lines 87-90 of src/ops/create_update.rs: the revision the request
asserts, read from the body _rev field first and from the If-Match
header second. The rev query parameter is never consulted; the params
argument of inner_new_item is the unused binder underscore-params. -/
def existing_rev (payload : Json) (rev_if_match : Option String) : Option String :=
  match jGetStr payload "_rev" with
  | some rev => some rev
  | none => rev_if_match

/-- Lines 99-104 of src/ops/create_update.rs: the new revision string.
A none models a panic: the source unwraps the u64 parse of the text
before the first dash of an asserted revision, and the increment of the
parsed generation overflows u64 (a panic in the builds the repository
tests) exactly when the generation is 2 ^ 64 - 1. -/
def compute_new_rev (body_md5 : String) (existing : Option String) : Option String :=
  match existing with
  | none => some ("1-" ++ body_md5)
  | some rev =>
    match parse_u64 (before_dash rev) with
    | some n => if n + 1 < 2 ^ 64 then some (toString (n + 1) ++ "-" ++ body_md5) else none
    | none => none

/-- A MongoDB collection: the ordered list of its documents. -/
abbrev Store := List Doc

/-- Outcome of a document write handler. crash models a Rust panic (an
unwrap of a None or Err); ok carries the updated collection, the HTTP
status and the JSON body; err is the Err arm carrying a status and JSON
body, with the collection unchanged. -/
inductive WRes where
  | crash : WRes
  | ok (store : Store) (status : Nat) (body : Json) : WRes
  | err (status : Nat) (body : Json) : WRes
deriving Repr

/-- The Database trait of src/db.rs, restricted to the calls the claims
exercise, as pure functions over the modelled collection. The error
side carries the driver error message. -/
structure DB where
  find_one : Store → String → Except String (Option Doc)
  replace_one : Store → Doc → Doc → Except String Store
  delete_one : Store → Doc → Except String (Store × Nat)

/-- A document matches a MongoDB equality filter when every filter field
is present in the document with exactly the filter value. -/
def matchesFilter (filter d : Doc) : Bool :=
  filter.all (fun kv => dGet d kv.1 == some kv.2)

/-- Replace the first document matching the filter. -/
def replaceFirstMatch (filter nd : Doc) : Store → Store
  | [] => []
  | d :: rest =>
    if matchesFilter filter d then nd :: rest else d :: replaceFirstMatch filter nd rest

/-- Remove the first document matching the filter. -/
def removeFirstMatch (filter : Doc) : Store → Store
  | [] => []
  | d :: rest =>
    if matchesFilter filter d then rest else d :: removeFirstMatch filter rest

/-- Driver model: find_one with filter on _id (src/db.rs line 63)
returns the first document whose _id equals the given id. -/
def mongo_find_one (store : Store) (id : String) : Except String (Option Doc) :=
  .ok (store.find? (fun d => dGet d "_id" == some (.str id)))

/-- Driver model: replace_one with upsert true (the only options the
gateway uses). When some document matches the filter it is replaced.
When none matches, the upsert inserts the replacement; MongoDB rejects
that insert with an E11000 duplicate key error when a document with the
same _id as the filter already exists, which is how a revision-mismatch
write surfaces as a driver error. -/
def mongo_replace_one (store : Store) (filter replacement : Doc) : Except String Store :=
  if store.any (fun d => matchesFilter filter d) then
    .ok (replaceFirstMatch filter replacement store)
  else if store.any (fun d => dGet d "_id" == dGet filter "_id") then
    .error "E11000 duplicate key error"
  else
    .ok (store ++ [replacement])

/-- Driver model: delete_one removes the first matching document and
reports the deleted count; deleting zero documents is a success. -/
def mongo_delete_one (store : Store) (filter : Doc) : Except String (Store × Nat) :=
  if store.any (fun d => matchesFilter filter d) then
    .ok (removeFirstMatch filter store, 1)
  else
    .ok (store, 0)

/-- The MongoDB driver model assembled as a Database instance. -/
def mongoDB : DB :=
  { find_one := mongo_find_one
    replace_one := mongo_replace_one
    delete_one := mongo_delete_one }

/-- check_conflict of src/ops/mod.rs lines 20-40: re-read the document
by id; a missing document yields 404 not_found, an existing one 409
conflict; a driver error propagates. -/
def check_conflict (db : DB) (store : Store) (id : String) : Except String (Nat × Json) :=
  match db.find_one store id with
  | .error e => .error e
  | .ok none => .ok (404, Json.obj [("error", Json.str "not_found")])
  | .ok (some _) => .ok (409, Json.obj [("error", Json.str "conflict")])

/-- Lines 75-85 of src/ops/create_update.rs: the id used for the write,
from the path item, else the body _id, else a generated UUID (the
gen_id parameter models the uuid crate). -/
def chosen_id (gen_id : String) (item : Option String) (payload : Json) : String :=
  match item with
  | some i => i
  | none =>
    match jGetStr payload "_id" with
    | some s => s
    | none => gen_id

/-- Lines 114-117: the replace filter, _id plus the asserted _rev when
one was asserted. -/
def write_filter (id : String) (existing : Option String) : Doc :=
  match existing with
  | some rev => dInsert [("_id", Json.str id)] "_rev" (Json.str rev)
  | none => [("_id", Json.str id)]

/-- Lines 107-110: the replacement document, the payload object with
_rev and then _id re-inserted. -/
def write_doc (fields : Doc) (id new_rev : String) : Doc :=
  dInsert (dInsert fields "_rev" (Json.str new_rev)) "_id" (Json.str id)

/-- inner_new_item of src/ops/create_update.rs lines 66-150. The
body_md5 parameter models the md5 crate composed with serde
serialization of the payload; gen_id models Uuid::new_v4. A crash is
the unwrap panic in the revision computation or the
as_document_mut unwrap on a non-object payload. The Location header of
the success response is not modelled. -/
def inner_new_item (body_md5 : Json → String) (gen_id : String) (db : DB)
    (store : Store) (item : Option String) (payload : Json)
    (rev_if_match : Option String) : WRes :=
  let id := chosen_id gen_id item payload
  let existing := existing_rev payload rev_if_match
  match compute_new_rev (body_md5 payload) existing with
  | none => .crash
  | some new_rev =>
    match payload with
    | .obj fields =>
      match db.replace_one store (write_filter id existing) (write_doc fields id new_rev) with
      | .ok store2 =>
        .ok store2 201
          (Json.obj [("ok", Json.bool true), ("id", Json.str id), ("rev", Json.str new_rev)])
      | .error _ =>
        match check_conflict db store id with
        | .ok (status, body) => .err status body
        | .error e =>
          .err 500 (Json.obj
            [("error", Json.str "internal server error"), ("details", Json.str e)])
    | _ => .crash

/-- Lines 22-25 of src/ops/delete.rs: the revision a delete asserts,
from the rev query parameter first and the If-Match header second. -/
def delete_asserted_rev (params_rev if_match : Option String) : Option String :=
  match params_rev with
  | some rev => some rev
  | none => if_match

/-- inner_delete_item of src/ops/delete.rs lines 15-47. A missing
revision is 412; the document is deleted under an (_id, _rev) filter;
a driver error goes through check_conflict; a driver success is 200
regardless of the deleted count, which the source discards. -/
def inner_delete_item (db : DB) (store : Store) (item : String)
    (params_rev : Option String) (if_match : Option String) : WRes :=
  match delete_asserted_rev params_rev if_match with
  | none => .err 412 (Json.obj [("error", Json.str "missing rev")])
  | some rev =>
    match db.delete_one store [("_id", Json.str item), ("_rev", Json.str rev)] with
    | .ok (store2, _count) =>
      .ok store2 200
        (Json.obj [("ok", Json.bool true), ("id", Json.str item), ("rev", Json.str rev)])
    | .error _ =>
      match check_conflict db store item with
      | .ok (status, body) => .err status body
      | .error e =>
        .err 500 (Json.obj
          [("error", Json.str "internal server error"), ("details", Json.str e)])

/-- Lines 45-48 of src/ops/bulk.rs: an item is dispatched to delete
when its _deleted field is the boolean true. -/
def bulk_deleted (doc : Json) : Bool :=
  match jGet doc "_deleted" with
  | some (.bool b) => b
  | _ => false

/-- One iteration of the docs loop of bulk_docs, src/ops/bulk.rs lines
44-108: dispatch to delete when _deleted is the boolean true and to
create-or-update otherwise; a success pushes the response body (the
delete arm rebuilds an ok-id-rev body itself); an Err pushes the
conflict object. none models a panic, either the id unwrap of a delete
item without a string _id or a crash inside inner_new_item. -/
def bulk_item (body_md5 : Json → String) (gen_id : String) (db : DB)
    (store : Store) (doc : Json) : Option (Store × Json) :=
  let delete := bulk_deleted doc
  let id := jGetStr doc "_id"
  let conflict := Json.obj
    [ ("id", (id.map Json.str).getD Json.null)
    , ("error", Json.str "conflict")
    , ("reason", Json.str "Document update conflict.") ]
  if delete then
    match jGetStr doc "_rev" with
    | none => some (store, conflict)
    | some r =>
      match id with
      | none => none
      | some i =>
        match inner_delete_item db store i (some r) none with
        | .crash => none
        | .ok store2 _ _ =>
          some (store2, Json.obj
            [("ok", Json.bool true), ("id", Json.str i), ("rev", Json.str r)])
        | .err _ _ => some (store, conflict)
  else
    match inner_new_item body_md5 gen_id db store id doc none with
    | .crash => none
    | .ok store2 _ body => some (store2, body)
    | .err _ _ => some (store, conflict)

/-- The docs loop of bulk_docs, threading the collection and an index
into the UUID supply from item to item. -/
def bulk_docs_loop (body_md5 : Json → String) (gen_ids : Nat → String) (db : DB) :
    Store → Nat → List Json → Option (Store × List Json)
  | store, _, [] => some (store, [])
  | store, i, doc :: rest =>
    match bulk_item body_md5 (gen_ids i) db store doc with
    | none => none
    | some (store2, resp) =>
      match bulk_docs_loop body_md5 gen_ids db store2 (i + 1) rest with
      | none => none
      | some (store3, resps) => some (store3, resp :: resps)

/-- bulk_docs of src/ops/bulk.rs lines 21-115, past the read-only
fall-through (couchdb_details is None in the modelled deployment, so
maybe_write yields None): iterate the docs array collecting per-item
responses; the aggregate response is 201 with the collected array.
none models a panic. -/
def bulk_docs (body_md5 : Json → String) (gen_ids : Nat → String) (db : DB)
    (store : Store) (docs : List Json) : Option (Store × Nat × List Json) :=
  match bulk_docs_loop body_md5 gen_ids db store 0 docs with
  | none => none
  | some (store2, resps) => some (store2, 201, resps)

/-- A GET response: status, body (none is an empty body) and the Etag
header. The header value in the source is the bson Display rendering of
the stored _rev (quoted, for a string); the model carries the BSON
value itself. -/
structure GetResp where
  status : Nat
  body : Option Json
  etag : Option Json
deriving Repr

/-- get_item of src/ops/get.rs lines 50-101 over get_item_from_db of
src/ops/mod.rs lines 43-64. latest_param and rev_param are
params.get of latest and rev. none models the get_str unwrap panic on
a document whose _rev is missing or not a string. In the rev branch
the source keeps the document body and flips the status to 304. -/
def get_item (db : DB) (store : Store) (item : String)
    (if_none_match : Option String) (latest_param rev_param : Option String) :
    Option GetResp :=
  match db.find_one store item with
  | .error e => some ⟨500, some (Json.obj [("error", Json.str e)]), none⟩
  | .ok none => some ⟨404, some (Json.obj [("error", Json.str "not_found")]), none⟩
  | .ok (some document) =>
    match if_none_match with
    | some tag =>
      match dGet document "_rev" with
      | some (.str r) =>
        if tag == r then some ⟨304, some (Json.obj []), none⟩
        else some ⟨412, none, none⟩
      | _ => none
    | none =>
      let latest := (latest_param.map (fun b => b == "true")).getD false
      match rev_param with
      | some rq =>
        match dGet document "_rev" with
        | some (.str r) =>
          if !latest && rq != r then
            some ⟨404, some (Json.obj [("error", Json.str "not found")]), none⟩
          else
            some ⟨304, some (Json.obj document), dGet document "_rev"⟩
        | _ => none
      | none => some ⟨200, some (Json.obj document), dGet document "_rev"⟩

/-- The HTTP layer (hyper) never transmits a message body with a 304
Not Modified response, so the handler-level body is dropped on the
wire. -/
def wire (r : GetResp) : GetResp :=
  if r.status == 304 then ⟨r.status, none, r.etag⟩ else r

/-- A reduce entry of a view definition (src/config.rs): the pipeline
for one group level. Stages are held as JSON strings in the TOML files
and parsed by extract_pipeline_bson; the model holds them parsed. -/
structure ReduceView where
  aggregation : List Doc
deriving Repr

/-- DesignView of src/config.rs lines 43-62, restricted to the fields
the pipeline builder reads. The row-shaping fields
(value_fields, the single-item flags, omit_null_keys_in_value) and the
break-glass script feed inner_get_view and the JS runtime, which no
claim exercises. -/
structure DesignView where
  match_fields : List String
  sort_fields : Option (List String)
  key_fields : List String
  aggregation : List Doc
  filter_insert_index : Nat
  reduce : Option (List (String × ReduceView))
deriving Repr

/-- ViewOptions of src/ops/get.rs lines 110-124, restricted to the
fields create_automated_pipeline reads. -/
structure ViewOptions where
  reduce : Bool
  group : Bool
  group_level : Int
  descending : Bool
  limit : Option Int
  skip : Int
  start_key : List Json
  end_key : List Json
  startkey_docid : Option String
  endkey_docid : Option String
  keys : List Json
deriving Repr

/-- extract_pipeline_bson of src/ops/get.rs lines 417-466: the base
stages, from the plain aggregation or, under reduce or group, from the
reduce table at the decimal group level (the key-field arity when the
level is the 999 sentinel). Stage-string JSON parse errors are not
modelled: the model holds stages parsed. -/
def extract_pipeline_bson (v : DesignView) (reduce : Bool) (group_level : Int) :
    Except String (List Doc) :=
  if !reduce then .ok v.aggregation
  else
    let lookup_key := if group_level == 999 then toString v.key_fields.length
      else toString group_level
    match v.reduce with
    | none => .error "expected reduce_view to be a Some"
    | some table =>
      match table.find? (fun kv => kv.1 == lookup_key) with
      | none => .error "expected reduce_view at group_level to be a Some"
      | some kv => .ok kv.2.aggregation

/-- The range document for one match field in create_filter (lines
495-509): a $gte bound from the start value and a $lte bound from the
end value, each omitted when the value is null or the empty document,
folded by extend into one document. -/
def range_cond (startv endv : Json) : Doc :=
  let absent := fun (x : Json) => x == Json.null || x == Json.obj []
  let startPart : Doc := if absent startv then [] else [("$gte", startv)]
  let endPart : Doc := if absent endv then [] else [("$lte", endv)]
  dExtend (dExtend [] startPart) endPart

/-- The no-keys arm of create_filter (lines 479-537): walk the match
fields positionally against start_key and end_key (swapped when
flipped), inserting an $eq constraint when both bounds agree (to_bson
of the defaulted values always succeeds, so absent bounds compare as
null here, a quirk kept from the source) and a range document
otherwise, skipping the field when the range is empty. -/
def filter_fields (flipped : Bool) (start_key end_key : List Json) :
    Nat → List String → Doc → Doc
  | _, [], filter => filter
  | i, f :: rest, filter =>
    let startv := (start_key.get? i).getD Json.null
    let endv := (end_key.get? i).getD Json.null
    let se := if flipped then (endv, startv) else (startv, endv)
    let filter2 :=
      if se.1 == se.2 then dInsert filter f (Json.obj [("$eq", se.1)])
      else
        let field := range_cond se.1 se.2
        if field.isEmpty then filter else dInsert filter f (Json.obj field)
    filter_fields flipped start_key end_key (i + 1) rest filter2

/-- Lines 516-536: the _id bounds from startkey_docid and
endkey_docid, each applied when present and non-empty. -/
def docid_bounds (filter : Doc) (skd ekd : Option String) : Doc :=
  let f1 := match skd with
    | some s => if s.isEmpty then filter else dInsert filter "_id" (Json.obj [("$gte", Json.str s)])
    | none => filter
  match ekd with
  | some s => if s.isEmpty then f1 else dInsert f1 "_id" (Json.obj [("$lte", Json.str s)])
  | none => f1

/-- key.as_array().unwrap_or(vec![key]) of map_keys: the components of
one requested key, a scalar standing for a one-element array. -/
def key_components (key : Json) : List Json :=
  match key with
  | .arr xs => xs
  | k => [k]

/-- The IndexMap built in map_keys: match fields zipped positionally
with the key components (the zip truncates at the shorter list, and a
repeated field keeps its first position with the later value). -/
def zip_fields (fields : List String) (values : List Json) : Doc :=
  (fields.zip values).foldl (fun acc kv => dInsert acc kv.1 kv.2) []

/-- map_keys of src/ops/get.rs lines 546-572: one conjunction per
requested key, their union under $or, wrapped in a single $and list
inserted into the filter. -/
def map_keys (v : DesignView) (keys : List Json) (filter : Doc) : Doc :=
  let and_conditions := keys.map (fun key =>
    Json.obj [("$and", Json.arr [Json.obj (zip_fields v.match_fields (key_components key))])])
  dInsert filter "$and" (Json.arr [Json.obj [("$or", Json.arr and_conditions)]])

/-- create_filter of src/ops/get.rs lines 468-544. -/
def create_filter (v : DesignView) (keys start_key end_key : List Json)
    (start_key_doc_id end_key_doc_id : Option String) (flipped : Bool) : Doc :=
  match keys with
  | [] =>
    docid_bounds (filter_fields flipped start_key end_key 0 v.match_fields [])
      start_key_doc_id end_key_doc_id
  | _ => map_keys v keys []

/-- One entry of the filter merged into an existing $match stage (lines
352-378): a $and key is entered as its list value by extend; any other
key merges its document value into the entry document, created empty
when absent; a non-document entry or filter value is a 500. -/
def merge_filter_entry (m : Doc) (k : String) (v : Json) : Except String Doc :=
  if k == "$and" then .ok (dExtend m [("$and", v)])
  else
    match (dGet m k).getD (Json.obj []) with
    | .obj entry_fields =>
      match v with
      | .obj v_fields => .ok (dInsert m k (Json.obj (dExtend entry_fields v_fields)))
      | _ => .error "expected value in filter to be a Document"
    | _ => .error "expected entry in filter to be a Document"

/-- The filter iteration of the merge, left to right, stopping at the
first error. -/
def merge_filter (m : Doc) : Doc → Except String Doc
  | [] => .ok m
  | kv :: rest =>
    match merge_filter_entry m kv.1 kv.2 with
    | .ok m2 => merge_filter m2 rest
    | .error e => .error e

/-- Vec::insert at an index known to be at most the length. -/
def insertAt (i : Nat) (x : α) : List α → List α :=
  fun l =>
    match i, l with
    | 0, l => x :: l
    | _ + 1, [] => [x]
    | i + 1, y :: l => y :: insertAt i x l

/-- The filter splicing of create_automated_pipeline (src/ops/get.rs
lines 338-385): an empty filter leaves the pipeline alone; when the
stage at filter_insert_index carries a $match key the filter entries
are merged into it in place; otherwise a fresh $match stage is
inserted at the index clamped to the pipeline length. -/
def splice_filter (v : DesignView) (pipeline : List Doc) (filter : Doc) :
    Except String (List Doc) :=
  if filter.isEmpty then .ok pipeline
  else
    match pipeline.get? v.filter_insert_index with
    | some stage =>
      if (dGet stage "$match").isSome then
        match dGet stage "$match" with
        | some (.obj m) =>
          match merge_filter m filter with
          | .ok m2 =>
            .ok (pipeline.set v.filter_insert_index (dInsert stage "$match" (Json.obj m2)))
          | .error e => .error e
        | _ => .error "expected $match to be a Document"
      else .ok (insertAt (min v.filter_insert_index pipeline.length)
        [("$match", Json.obj filter)] pipeline)
    | none => .ok (insertAt (min v.filter_insert_index pipeline.length)
        [("$match", Json.obj filter)] pipeline)

/-- One field of the descending rewrite (lines 391-397): negate the
direction of the named field when its current direction answers as_i64
(a BSON Int64, which is what every JSON-parsed stage holds), leave the
sort document alone otherwise. -/
def neg_sort_step (s : Doc) (f : String) : Doc :=
  match dGet s f with
  | some (.int dir) => dInsert s f (Json.int (-dir))
  | _ => s

/-- The field loop of the descending rewrite (lines 390-397). -/
def neg_sort_fields (fields : List String) (sortd : Doc) : Doc :=
  fields.foldl neg_sort_step sortd

/-- One stage of the descending rewrite (lines 388-399): a stage whose
$sort is a document gets its named fields negated and _id -1 extended
onto the sort document; any other stage is untouched. -/
def descending_stage (fields : List String) (stage : Doc) : Doc :=
  match dGet stage "$sort" with
  | some (.obj sortd) =>
    dInsert stage "$sort"
      (Json.obj (dExtend (neg_sort_fields fields sortd) [("_id", Json.int (-1))]))
  | _ => stage

/-- The descending walk over the whole pipeline (lines 387-401), using
sort_fields when present and match_fields otherwise. -/
def apply_descending (v : DesignView) (pipeline : List Doc) : List Doc :=
  pipeline.map (descending_stage (v.sort_fields.getD v.match_fields))

/-- create_automated_pipeline of src/ops/get.rs lines 318-415: filter
synthesis, base stages, splicing, the descending rewrite, then the
paging stages ($skip always, $limit when set). -/
def create_automated_pipeline (v : DesignView) (o : ViewOptions) :
    Except String (List Doc) :=
  let filter := create_filter v o.keys o.start_key o.end_key o.startkey_docid
    o.endkey_docid o.descending
  match extract_pipeline_bson v (o.reduce || o.group) o.group_level with
  | .error e => .error e
  | .ok pipeline0 =>
    match splice_filter v pipeline0 filter with
    | .error e => .error e
    | .ok pipeline1 =>
      let pipeline2 := if o.descending then apply_descending v pipeline1 else pipeline1
      let pipeline3 := pipeline2 ++ [[("$skip", Json.int o.skip)]]
      match o.limit with
      | some lim => .ok (pipeline3 ++ [[("$limit", Json.int lim)]])
      | none => .ok pipeline3

/-- Modelled from the spec (and the wording of the revision-precedence
claim): an asserted revision taken from the body, the If-Match header,
or the rev query parameter in that precedence. The source never reads
the query parameter; compare existing_rev. -/
def claimed_asserted_rev (payload : Json) (if_match params_rev : Option String) :
    Option String :=
  match jGetStr payload "_rev" with
  | some rev => some rev
  | none =>
    match if_match with
    | some r => some r
    | none => params_rev

/-- Well-formedness of one _bulk_docs item, exactly the conditions
under which the loop body cannot panic: a deletion item carrying a
string _rev also carries a string _id, and any other item is a JSON
object whose _rev, when it is a string, has a generation that parses
as u64 and increments without overflow. -/
def bulkItemOk (d : Json) : Bool :=
  if bulk_deleted d then
    match jGetStr d "_rev" with
    | some _ => (jGetStr d "_id").isSome
    | none => true
  else
    match d with
    | .obj _ =>
      match jGetStr d "_rev" with
      | some r =>
        match parse_u64 (before_dash r) with
        | some n => n + 1 < 2 ^ 64
        | none => false
      | none => true
    | _ => false

/-- A stand-in digest instantiating the md5 parameter in closed
witnesses; the gateway treats the digest as an opaque hex string. -/
def demoMd5 (_j : Json) : String := "0cc175b9c0f1b6a831c399e269772661"

/-- A stand-in UUID supply for closed witnesses. -/
def demoGenId (n : Nat) : String := "generated" ++ toString n

/-- A driver whose replace call fails (the collection is reachable for
reads), instantiating the driver-error hypotheses in witnesses. -/
def failDB : DB :=
  { find_one := mongo_find_one
    replace_one := fun _ _ _ => .error "driver down"
    delete_one := mongo_delete_one }

/-- Uniqueness of document ids across a collection, the invariant
MongoDB maintains on _id. -/
def uniqueIds (store : Store) : Prop :=
  store.Pairwise (fun d1 d2 => dGet d1 "_id" ≠ dGet d2 "_id")

/-- The shape of a per-item success body in a _bulk_docs response: the
ok-id-rev object that both the create path and the delete arm of the
loop produce. -/
def okShape (r : Json) : Prop :=
  ∃ id rev, r = Json.obj
    [("ok", Json.bool true), ("id", Json.str id), ("rev", Json.str rev)]

/-- The shape of a per-item failure entry in a _bulk_docs response. -/
def conflictShape (r : Json) : Prop :=
  ∃ idv, r = Json.obj
    [ ("id", idv)
    , ("error", Json.str "conflict")
    , ("reason", Json.str "Document update conflict.") ]

mutual

theorem Json.eq_of_beq : ∀ {a b : Json}, Json.beq a b = true → a = b
  | .null, .null, _ => rfl
  | .bool _, .bool _, h => by simp [Json.beq] at h; simp [h]
  | .int _, .int _, h => by simp [Json.beq] at h; simp [h]
  | .str _, .str _, h => by simp [Json.beq] at h; simp [h]
  | .arr xs, .arr ys, h => by
    have hl := @Json.eqList_of_beqList xs ys (by simpa [Json.beq] using h)
    simp [hl]
  | .obj xs, .obj ys, h => by
    have hl := @Json.eqFields_of_beqFields xs ys (by simpa [Json.beq] using h)
    simp [hl]
  | .null, .bool _, h => by simp [Json.beq] at h
  | .null, .int _, h => by simp [Json.beq] at h
  | .null, .str _, h => by simp [Json.beq] at h
  | .null, .arr _, h => by simp [Json.beq] at h
  | .null, .obj _, h => by simp [Json.beq] at h
  | .bool _, .null, h => by simp [Json.beq] at h
  | .bool _, .int _, h => by simp [Json.beq] at h
  | .bool _, .str _, h => by simp [Json.beq] at h
  | .bool _, .arr _, h => by simp [Json.beq] at h
  | .bool _, .obj _, h => by simp [Json.beq] at h
  | .int _, .null, h => by simp [Json.beq] at h
  | .int _, .bool _, h => by simp [Json.beq] at h
  | .int _, .str _, h => by simp [Json.beq] at h
  | .int _, .arr _, h => by simp [Json.beq] at h
  | .int _, .obj _, h => by simp [Json.beq] at h
  | .str _, .null, h => by simp [Json.beq] at h
  | .str _, .bool _, h => by simp [Json.beq] at h
  | .str _, .int _, h => by simp [Json.beq] at h
  | .str _, .arr _, h => by simp [Json.beq] at h
  | .str _, .obj _, h => by simp [Json.beq] at h
  | .arr _, .null, h => by simp [Json.beq] at h
  | .arr _, .bool _, h => by simp [Json.beq] at h
  | .arr _, .int _, h => by simp [Json.beq] at h
  | .arr _, .str _, h => by simp [Json.beq] at h
  | .arr _, .obj _, h => by simp [Json.beq] at h
  | .obj _, .null, h => by simp [Json.beq] at h
  | .obj _, .bool _, h => by simp [Json.beq] at h
  | .obj _, .int _, h => by simp [Json.beq] at h
  | .obj _, .str _, h => by simp [Json.beq] at h
  | .obj _, .arr _, h => by simp [Json.beq] at h

theorem Json.eqList_of_beqList : ∀ {xs ys : List Json}, Json.beqList xs ys = true → xs = ys
  | [], [], _ => rfl
  | x :: xs, y :: ys, h => by
    have h2 := h
    simp only [Json.beqList, Bool.and_eq_true] at h2
    have h3 := @Json.eq_of_beq x y h2.1
    have h4 := @Json.eqList_of_beqList xs ys h2.2
    simp [h3, h4]
  | [], _ :: _, h => by simp [Json.beqList] at h
  | _ :: _, [], h => by simp [Json.beqList] at h

theorem Json.eqFields_of_beqFields :
    ∀ {xs ys : List (String × Json)}, Json.beqFields xs ys = true → xs = ys
  | [], [], _ => rfl
  | (k1, v1) :: xs, (k2, v2) :: ys, h => by
    have h2 := h
    simp only [Json.beqFields, Bool.and_eq_true] at h2
    have h3 := @Json.eq_of_beq v1 v2 h2.1.2
    have h4 := @Json.eqFields_of_beqFields xs ys h2.2
    have h5 : k1 = k2 := by simpa using h2.1.1
    simp [h3, h4, h5]
  | [], _ :: _, h => by simp [Json.beqFields] at h
  | _ :: _, [], h => by simp [Json.beqFields] at h

end

mutual

theorem Json.beq_refl : ∀ a : Json, Json.beq a a = true
  | .null => rfl
  | .bool _ => by simp [Json.beq]
  | .int _ => by simp [Json.beq]
  | .str _ => by simp [Json.beq]
  | .arr xs => by simpa [Json.beq] using Json.beqList_refl xs
  | .obj xs => by simpa [Json.beq] using Json.beqFields_refl xs

theorem Json.beqList_refl : ∀ xs : List Json, Json.beqList xs xs = true
  | [] => rfl
  | x :: xs => by simp [Json.beqList, Json.beq_refl x, Json.beqList_refl xs]

theorem Json.beqFields_refl : ∀ xs : List (String × Json), Json.beqFields xs xs = true
  | [] => rfl
  | (_, v) :: xs => by simp [Json.beqFields, Json.beq_refl v, Json.beqFields_refl xs]

end

theorem json_beq_iff (a b : Json) : (a == b) = true ↔ a = b := by
  constructor
  · exact fun h => Json.eq_of_beq h
  · intro h
    subst h
    exact Json.beq_refl a

theorem opt_json_beq_iff (o p : Option Json) : (o == p) = true ↔ o = p := by
  cases o with
  | none =>
    cases p with
    | none => exact ⟨fun _ => rfl, fun _ => rfl⟩
    | some b => exact ⟨fun h => Bool.noConfusion h, fun h => Option.noConfusion h⟩
  | some a =>
    cases p with
    | none => exact ⟨fun h => Bool.noConfusion h, fun h => Option.noConfusion h⟩
    | some b =>
      have h : (some a == some b) = (a == b) := rfl
      rw [h, json_beq_iff]
      simp

theorem matchesFilter_iff (filter d : Doc) :
    matchesFilter filter d = true ↔ ∀ kv ∈ filter, dGet d kv.1 = some kv.2 := by
  simp only [matchesFilter, List.all_eq_true, opt_json_beq_iff]

theorem dGet_dInsert_self (d : Doc) (k : String) (v : Json) :
    dGet (dInsert d k v) k = some v := by
  induction d with
  | nil => simp [dGet, dInsert, List.find?]
  | cons kv rest ih =>
    by_cases h : kv.1 = k
    · simp [dGet, dInsert, h, List.find?]
    · have hb : (kv.1 == k) = false := by simpa using h
      simp only [dInsert, hb, Bool.false_eq_true, if_false]
      simpa [dGet, List.find?, hb] using ih

theorem dGet_dInsert_of_ne (d : Doc) (k k2 : String) (v : Json) (h : k2 ≠ k) :
    dGet (dInsert d k v) k2 = dGet d k2 := by
  induction d with
  | nil =>
    have hb : (k == k2) = false := by simpa using fun he => h he.symm
    simp [dGet, dInsert, List.find?, hb]
  | cons kv rest ih =>
    by_cases hk : kv.1 = k
    · have hb : (kv.1 == k) = true := by simpa using hk
      have hb2 : (kv.1 == k2) = false := by
        simpa using fun he => h (by rw [← he, hk])
      have hb3 : (k == k2) = false := by simpa using fun he => h he.symm
      simp [dGet, dInsert, hb, hb2, hb3, List.find?]
    · have hb : (kv.1 == k) = false := by simpa using hk
      by_cases hk2 : kv.1 = k2
      · have hb2 : (kv.1 == k2) = true := by simpa using hk2
        simp [dGet, dInsert, hb, hb2, List.find?]
      · have hb2 : (kv.1 == k2) = false := by simpa using hk2
        simp only [dInsert, hb, Bool.false_eq_true, if_false]
        simpa [dGet, List.find?, hb2] using ih

theorem isSome_dGet_dInsert (d : Doc) (k k2 : String) (v : Json)
    (h : (dGet d k2).isSome = true) : (dGet (dInsert d k v) k2).isSome = true := by
  by_cases he : k2 = k
  · subst he
    simp [dGet_dInsert_self]
  · rw [dGet_dInsert_of_ne d k k2 v he]
    exact h

theorem mem_replaceFirstMatch (filter nd : Doc) (store : Store)
    (h : store.any (fun d => matchesFilter filter d) = true) :
    nd ∈ replaceFirstMatch filter nd store := by
  induction store with
  | nil => simp at h
  | cons d rest ih =>
    by_cases hm : matchesFilter filter d = true
    · simp [replaceFirstMatch, hm]
    · have hb : matchesFilter filter d = false := by simpa using hm
      have h2 : rest.any (fun d => matchesFilter filter d) = true := by
        simpa [hb] using h
      simp [replaceFirstMatch, hb, ih h2]

/-- Claim C7: for every view query with a non-empty keys list, the
synthesized filter equals a single $and wrapping one $or over one
conjunction per requested key, each conjunction pairing the key
components positionally with the match fields, a scalar key being
treated as a one-element array. -/
theorem c7_keys_filter (v : DesignView) (keys start_key end_key : List Json)
    (skd ekd : Option String) (flipped : Bool) (h : keys ≠ []) :
    create_filter v keys start_key end_key skd ekd flipped =
      [("$and", Json.arr [Json.obj [("$or", Json.arr (keys.map (fun key =>
        Json.obj [("$and", Json.arr
          [Json.obj (zip_fields v.match_fields (key_components key))])])))]])] ∧
    (∀ k, (∀ xs, k ≠ Json.arr xs) → key_components k = [k]) := by
  constructor
  · cases keys with
    | nil => exact absurd rfl h
    | cons k ks => rfl
  · intro k hk
    cases k <;> first | rfl | exact absurd rfl (hk _)

/-- Witness for C7, the S5 scenario of the spec: match fields a and b
with keys of two two-element arrays. -/
theorem c7_keys_filter_witness :
    create_filter ⟨["a", "b"], none, [], [], 0, none⟩
      [Json.arr [Json.str "x", Json.str "y"], Json.arr [Json.str "x", Json.str "z"]]
      [] [] none none false =
      [("$and", Json.arr [Json.obj [("$or", Json.arr
        [ Json.obj [("$and", Json.arr
            [Json.obj [("a", Json.str "x"), ("b", Json.str "y")]])]
        , Json.obj [("$and", Json.arr
            [Json.obj [("a", Json.str "x"), ("b", Json.str "z")]])] ])]])] :=
  ((c7_keys_filter ⟨["a", "b"], none, [], [], 0, none⟩
    [Json.arr [Json.str "x", Json.str "y"], Json.arr [Json.str "x", Json.str "z"]]
    [] [] none none false (by simp)).1).trans rfl

/-- Claim C9: a DELETE supplying a revision answers 200 with the
ok-id-rev body whenever the driver delete call itself succeeds, for any
deleted count, the count being discarded; the conflict re-read is only
reached on a driver error. -/
theorem c9_delete_ignores_count (db : DB) (store : Store) (item : String)
    (params_rev if_match : Option String) (rev : String) (store2 : Store) (count : Nat)
    (hrev : delete_asserted_rev params_rev if_match = some rev)
    (hdel : db.delete_one store [("_id", Json.str item), ("_rev", Json.str rev)] =
      .ok (store2, count)) :
    inner_delete_item db store item params_rev if_match =
      .ok store2 200 (Json.obj
        [("ok", Json.bool true), ("id", Json.str item), ("rev", Json.str rev)]) := by
  simp [inner_delete_item, hrev, hdel]

/-- Witness for C9: deleting a document that does not exist (deleted
count zero) still answers 200 ok. -/
theorem c9_delete_ignores_count_witness :
    inner_delete_item mongoDB [] "x" (some "1-aa") none =
      .ok [] 200 (Json.obj
        [("ok", Json.bool true), ("id", Json.str "x"), ("rev", Json.str "1-aa")]) :=
  c9_delete_ignores_count mongoDB [] "x" (some "1-aa") none "1-aa" [] 0 rfl rfl

/-- Claim C10: whenever a revision is asserted (body _rev or If-Match)
whose text before the first dash does not parse as a decimal u64, the
write handler panics instead of returning a response. -/
theorem c10_rev_parse_crash (body_md5 : Json → String) (gen_id : String) (db : DB)
    (store : Store) (item : Option String) (payload : Json) (rev_if_match : Option String)
    (rev : String) (hrev : existing_rev payload rev_if_match = some rev)
    (hparse : parse_u64 (before_dash rev) = none) :
    inner_new_item body_md5 gen_id db store item payload rev_if_match = .crash := by
  have hc : compute_new_rev (body_md5 payload) (existing_rev payload rev_if_match) = none := by
    rw [hrev]
    simp [compute_new_rev, hparse]
  simp [inner_new_item, hc]

/-- Witness for C10: a body _rev of abc-1 and a quoted If-Match value
both crash the handler. -/
theorem c10_rev_parse_crash_witness :
    inner_new_item demoMd5 "g0" mongoDB [] (some "x")
      (Json.obj [("_rev", Json.str "abc-1")]) none = .crash ∧
    inner_new_item demoMd5 "g0" mongoDB [] (some "x")
      (Json.obj [("n", Json.int 1)]) (some "\"1-abc\"") = .crash :=
  ⟨ c10_rev_parse_crash demoMd5 "g0" mongoDB [] (some "x")
      (Json.obj [("_rev", Json.str "abc-1")]) none "abc-1" rfl rfl
  , c10_rev_parse_crash demoMd5 "g0" mongoDB [] (some "x")
      (Json.obj [("n", Json.int 1)]) (some "\"1-abc\"") "\"1-abc\"" rfl rfl ⟩

theorem write_doc_id (fields : Doc) (id nrev : String) :
    dGet (write_doc fields id nrev) "_id" = some (Json.str id) := by
  rw [write_doc, dGet_dInsert_self]

theorem write_doc_rev (fields : Doc) (id nrev : String) :
    dGet (write_doc fields id nrev) "_rev" = some (Json.str nrev) := by
  rw [write_doc, dGet_dInsert_of_ne _ _ _ _ (by decide), dGet_dInsert_self]

theorem mem_of_mongo_replace_one_ok (store : Store) (filt nd : Doc) (store2 : Store)
    (h : mongo_replace_one store filt nd = .ok store2) : nd ∈ store2 := by
  by_cases hany : store.any (fun d => matchesFilter filt d) = true
  · rw [mongo_replace_one, if_pos hany] at h
    cases h
    exact mem_replaceFirstMatch filt nd store hany
  · rw [mongo_replace_one, if_neg hany] at h
    by_cases hdup : store.any (fun d => dGet d "_id" == dGet filt "_id") = true
    · rw [if_pos hdup] at h
      exact Except.noConfusion h
    · rw [if_neg hdup] at h
      cases h
      simp

/-- Claim C2: conditional GET of an existing document: a matching
If-None-Match answers 304 with an empty body, a mismatched one 412 with
an empty body; otherwise a rev parameter different from the stored
revision (without latest=true) answers 404, an equal one 304, and a
request with neither conditional header nor rev parameter answers 200
with the document and an Etag carrying the stored revision. -/
theorem c2_conditional_get (db : DB) (store : Store) (item : String)
    (document : Doc) (r : String)
    (hfind : db.find_one store item = .ok (some document))
    (hrev : dGet document "_rev" = some (Json.str r)) :
    (∀ latestp revp,
      (get_item db store item (some r) latestp revp).map wire =
        some ⟨304, none, none⟩) ∧
    (∀ tag latestp revp, tag ≠ r →
      (get_item db store item (some tag) latestp revp).map wire =
        some ⟨412, none, none⟩) ∧
    (∀ latestp rq, latestp ≠ some "true" → rq ≠ r →
      (get_item db store item none latestp (some rq)).map wire =
        some ⟨404, some (Json.obj [("error", Json.str "not found")]), none⟩) ∧
    (∀ latestp,
      (get_item db store item none latestp (some r)).map wire =
        some ⟨304, none, some (Json.str r)⟩) ∧
    (∀ latestp,
      (get_item db store item none latestp none).map wire =
        some ⟨200, some (Json.obj document), some (Json.str r)⟩) := by
  refine ⟨?_, ?_, ?_, ?_, ?_⟩
  · intro latestp revp
    simp [get_item, hfind, hrev, wire]
  · intro tag latestp revp htag
    have hb : (tag == r) = false := by simpa using htag
    simp [get_item, hfind, hrev, hb, wire]
  · intro latestp rq hlat hne
    have hl : ((latestp.map (fun b => b == "true")).getD false) = false := by
      cases latestp with
      | none => rfl
      | some x =>
        have hx : (x == "true") = false := by
          simpa using fun hx2 => hlat (by rw [hx2])
        simp [hx]
    have hb : (rq == r) = false := by simpa using hne
    simp [get_item, hfind, hrev, hl, bne, hb, wire]
  · intro latestp
    simp [get_item, hfind, hrev, wire]
  · intro latestp
    simp [get_item, hfind, hrev, wire]

/-- Witness for C2 on a one-document collection at revision 1-aa, one
instance of each of the five branches. -/
theorem c2_conditional_get_witness :
    ((get_item mongoDB [[("_id", Json.str "x"), ("_rev", Json.str "1-aa")]] "x"
      (some "1-aa") none none).map wire = some ⟨304, none, none⟩) ∧
    ((get_item mongoDB [[("_id", Json.str "x"), ("_rev", Json.str "1-aa")]] "x"
      (some "1-zz") none none).map wire = some ⟨412, none, none⟩) ∧
    ((get_item mongoDB [[("_id", Json.str "x"), ("_rev", Json.str "1-aa")]] "x"
      none none (some "9-xx")).map wire =
      some ⟨404, some (Json.obj [("error", Json.str "not found")]), none⟩) ∧
    ((get_item mongoDB [[("_id", Json.str "x"), ("_rev", Json.str "1-aa")]] "x"
      none none (some "1-aa")).map wire = some ⟨304, none, some (Json.str "1-aa")⟩) ∧
    ((get_item mongoDB [[("_id", Json.str "x"), ("_rev", Json.str "1-aa")]] "x"
      none none none).map wire =
      some ⟨200, some (Json.obj [("_id", Json.str "x"), ("_rev", Json.str "1-aa")]),
        some (Json.str "1-aa")⟩) := by
  have h := c2_conditional_get mongoDB [[("_id", Json.str "x"), ("_rev", Json.str "1-aa")]]
    "x" [("_id", Json.str "x"), ("_rev", Json.str "1-aa")] "1-aa" rfl rfl
  exact ⟨h.1 none none, h.2.1 "1-zz" none none (by decide),
    h.2.2.1 none "9-xx" (by simp) (by decide), h.2.2.2.1 none, h.2.2.2.2 none⟩

/-- Claim C1: every successful create-or-update answers 201 with a body
whose rev is 1 followed by the digest of the body when no revision was
asserted, and the asserted generation plus one followed by the digest
when one was, and the document stored in the collection carries that
same revision. -/
theorem c1_success_revision (body_md5 : Json → String) (gen_id : String)
    (store : Store) (item : Option String) (payload : Json) (rev_if_match : Option String)
    (store2 : Store) (body : Json)
    (h : inner_new_item body_md5 gen_id mongoDB store item payload rev_if_match =
      WRes.ok store2 201 body) :
    ∃ new_rev,
      body = Json.obj [("ok", Json.bool true),
        ("id", Json.str (chosen_id gen_id item payload)), ("rev", Json.str new_rev)] ∧
      (existing_rev payload rev_if_match = none → new_rev = "1-" ++ body_md5 payload) ∧
      (∀ rev, existing_rev payload rev_if_match = some rev →
        ∃ n, parse_u64 (before_dash rev) = some n ∧
          new_rev = toString (n + 1) ++ "-" ++ body_md5 payload) ∧
      ∃ d ∈ store2, dGet d "_id" = some (Json.str (chosen_id gen_id item payload)) ∧
        dGet d "_rev" = some (Json.str new_rev) := by
  cases hc : compute_new_rev (body_md5 payload) (existing_rev payload rev_if_match) with
  | none => simp [inner_new_item, hc] at h
  | some nrev =>
    cases payload with
    | null => simp [inner_new_item, hc] at h
    | bool b => simp [inner_new_item, hc] at h
    | int n => simp [inner_new_item, hc] at h
    | str s => simp [inner_new_item, hc] at h
    | arr xs => simp [inner_new_item, hc] at h
    | obj fields =>
      cases hr : mongo_replace_one store
          (write_filter (chosen_id gen_id item (Json.obj fields))
            (existing_rev (Json.obj fields) rev_if_match))
          (write_doc fields (chosen_id gen_id item (Json.obj fields)) nrev) with
      | error e =>
        cases hf : store.find? (fun d =>
            dGet d "_id" == some (Json.str (chosen_id gen_id item (Json.obj fields)))) with
        | none =>
          simp [inner_new_item, hc, hr, mongoDB, check_conflict, mongo_find_one, hf] at h
        | some d =>
          simp [inner_new_item, hc, hr, mongoDB, check_conflict, mongo_find_one, hf] at h
      | ok store2x =>
        simp only [inner_new_item, hc, hr, mongoDB] at h
        injection h with hst h201 hbody
        refine ⟨nrev, hbody.symm, ?_, ?_, ?_⟩
        · intro hex
          rw [hex] at hc
          simp only [compute_new_rev, Option.some.injEq] at hc
          exact hc.symm
        · intro rev hex
          rw [hex] at hc
          cases hp : parse_u64 (before_dash rev) with
          | none => simp [compute_new_rev, hp] at hc
          | some n =>
            simp [compute_new_rev, hp] at hc
            exact ⟨n, rfl, hc.2.symm⟩
        · rw [← hst]
          exact ⟨write_doc fields (chosen_id gen_id item (Json.obj fields)) nrev,
            mem_of_mongo_replace_one_ok _ _ _ _ hr,
            write_doc_id _ _ _, write_doc_rev _ _ _⟩

/-- Witness for C1, the S1 scenario: creating a fresh document stores
and returns generation-one revision built from the digest. -/
theorem c1_success_revision_witness :
    ∃ new_rev,
      Json.obj [("ok", Json.bool true), ("id", Json.str "x"),
        ("rev", Json.str "1-0cc175b9c0f1b6a831c399e269772661")] =
        Json.obj [("ok", Json.bool true), ("id", Json.str "x"),
          ("rev", Json.str new_rev)] ∧
      (existing_rev (Json.obj [("name", Json.str "a")]) none = none →
        new_rev = "1-" ++ demoMd5 (Json.obj [("name", Json.str "a")])) ∧
      (∀ rev, existing_rev (Json.obj [("name", Json.str "a")]) none = some rev →
        ∃ n, parse_u64 (before_dash rev) = some n ∧
          new_rev = toString (n + 1) ++ "-" ++ demoMd5 (Json.obj [("name", Json.str "a")])) ∧
      ∃ d ∈ [[("name", Json.str "a"),
          ("_rev", Json.str "1-0cc175b9c0f1b6a831c399e269772661"),
          ("_id", Json.str "x")]],
        dGet d "_id" = some (Json.str "x") ∧ dGet d "_rev" = some (Json.str new_rev) :=
  c1_success_revision demoMd5 "g0" [] (some "x") (Json.obj [("name", Json.str "a")]) none
    [[("name", Json.str "a"), ("_rev", Json.str "1-0cc175b9c0f1b6a831c399e269772661"),
      ("_id", Json.str "x")]]
    (Json.obj [("ok", Json.bool true), ("id", Json.str "x"),
      ("rev", Json.str "1-0cc175b9c0f1b6a831c399e269772661")])
    rfl

theorem write_filter_some (id rev : String) :
    write_filter id (some rev) = [("_id", Json.str id), ("_rev", Json.str rev)] := rfl

/-- Counterexample to C3 as stated: the only revision the request
supplies rides the rev query parameter (body _rev and If-Match absent)
and differs from the stored revision, so by the claim the write should
fail with a conflict; the source ignores the parameter, asserts no
revision and overwrites the document with a 201. -/
theorem c3_rev_query_counterexample :
    claimed_asserted_rev (Json.obj [("name", Json.str "b")]) none (some "1-zz") =
      some "1-zz" ∧
    mongo_find_one [[("_id", Json.str "x"), ("_rev", Json.str "2-aa")]] "x" =
      .ok (some [("_id", Json.str "x"), ("_rev", Json.str "2-aa")]) ∧
    ("1-zz" : String) ≠ "2-aa" ∧
    inner_new_item demoMd5 "g0" mongoDB [[("_id", Json.str "x"), ("_rev", Json.str "2-aa")]]
      (some "x") (Json.obj [("name", Json.str "b")]) none =
      WRes.ok [[("name", Json.str "b"),
        ("_rev", Json.str "1-0cc175b9c0f1b6a831c399e269772661"), ("_id", Json.str "x")]]
      201 (Json.obj [("ok", Json.bool true), ("id", Json.str "x"),
        ("rev", Json.str "1-0cc175b9c0f1b6a831c399e269772661")]) :=
  ⟨rfl, rfl, by decide, rfl⟩

/-- Claim C3 (amended): the revision a write asserts is the body _rev
field first, else the If-Match header; the rev query parameter is
ignored. When a document with the target id exists, an asserting write
succeeds exactly when the asserted revision equals the stored one and
otherwise fails with a 409 conflict; when no document with that id
exists the asserting write succeeds as an upsert. -/
theorem c3_write_revision (body_md5 : Json → String) (gen_id : String)
    (store : Store) (id : String) (fields : Doc) (rev_if_match : Option String)
    (arev new_rev : String)
    (hrev : existing_rev (Json.obj fields) rev_if_match = some arev)
    (hc : compute_new_rev (body_md5 (Json.obj fields)) (some arev) = some new_rev) :
    (∀ bodyrev, jGetStr (Json.obj fields) "_rev" = some bodyrev →
      existing_rev (Json.obj fields) rev_if_match = some bodyrev) ∧
    (∀ d, mongo_find_one store id = .ok (some d) →
      dGet d "_rev" = some (Json.str arev) →
      ∃ store2, inner_new_item body_md5 gen_id mongoDB store (some id) (Json.obj fields)
        rev_if_match = WRes.ok store2 201 (Json.obj [("ok", Json.bool true),
          ("id", Json.str id), ("rev", Json.str new_rev)])) ∧
    (∀ d, mongo_find_one store id = .ok (some d) →
      dGet d "_rev" ≠ some (Json.str arev) → uniqueIds store →
      inner_new_item body_md5 gen_id mongoDB store (some id) (Json.obj fields)
        rev_if_match = WRes.err 409 (Json.obj [("error", Json.str "conflict")])) ∧
    (mongo_find_one store id = .ok none →
      ∃ store2, inner_new_item body_md5 gen_id mongoDB store (some id) (Json.obj fields)
        rev_if_match = WRes.ok store2 201 (Json.obj [("ok", Json.bool true),
          ("id", Json.str id), ("rev", Json.str new_rev)])) := by
  refine ⟨?_, ?_, ?_, ?_⟩
  · intro bodyrev hb
    simp [existing_rev, hb]
  · intro d hfind hd
    simp only [mongo_find_one, Except.ok.injEq] at hfind
    have hp := List.find?_some hfind
    have hdid : dGet d "_id" = some (Json.str id) := (opt_json_beq_iff _ _).mp hp
    have hmem := List.mem_of_find?_eq_some hfind
    have hmatch : matchesFilter (write_filter id (some arev)) d = true := by
      rw [matchesFilter_iff, write_filter_some]
      intro kv hkv
      rcases List.mem_cons.mp hkv with rfl | hkv2
      · exact hdid
      · rcases List.mem_cons.mp hkv2 with rfl | hkv3
        · exact hd
        · cases hkv3
    have hany : store.any (fun d2 => matchesFilter (write_filter id (some arev)) d2) = true :=
      List.any_eq_true.mpr ⟨d, hmem, hmatch⟩
    refine ⟨replaceFirstMatch (write_filter id (some arev))
      (write_doc fields id new_rev) store, ?_⟩
    simp [inner_new_item, chosen_id, hrev, hc, mongoDB, mongo_replace_one, hany]
  · intro d hfind hd hu
    simp only [mongo_find_one, Except.ok.injEq] at hfind
    have hp := List.find?_some hfind
    have hdid : dGet d "_id" = some (Json.str id) := (opt_json_beq_iff _ _).mp hp
    have hmem := List.mem_of_find?_eq_some hfind
    have hanyf : store.any (fun d2 => matchesFilter (write_filter id (some arev)) d2)
        = false := by
      rw [Bool.eq_false_iff]
      intro hany
      obtain ⟨d2, hmem2, hm2⟩ := List.any_eq_true.mp hany
      rw [matchesFilter_iff, write_filter_some] at hm2
      have hid2 : dGet d2 "_id" = some (Json.str id) :=
        hm2 ("_id", Json.str id) (by simp)
      have hrev2 : dGet d2 "_rev" = some (Json.str arev) :=
        hm2 ("_rev", Json.str arev) (by simp)
      have hne : d ≠ d2 := by
        intro he
        rw [← he] at hrev2
        exact hd hrev2
      have hsymm : Symmetric (fun d1 d2 : Doc => dGet d1 "_id" ≠ dGet d2 "_id") :=
        fun _ _ hcon h2 => hcon h2.symm
      have hu2 : store.Pairwise (fun d1 d2 => dGet d1 "_id" ≠ dGet d2 "_id") := hu
      exact (List.Pairwise.forall hsymm hu2) hmem hmem2 hne (by rw [hdid, hid2])
    have hdup : store.any
        (fun d2 => dGet d2 "_id" == dGet (write_filter id (some arev)) "_id") = true := by
      apply List.any_eq_true.mpr
      refine ⟨d, hmem, ?_⟩
      show (dGet d "_id" == some (Json.str id)) = true
      exact (opt_json_beq_iff _ _).mpr hdid
    simp [inner_new_item, chosen_id, hrev, hc, mongoDB, mongo_replace_one, hanyf, hdup,
      check_conflict, mongo_find_one, hfind]
  · intro hfind
    simp only [mongo_find_one, Except.ok.injEq] at hfind
    have hnone := List.find?_eq_none.mp hfind
    have hanyf : store.any (fun d2 => matchesFilter (write_filter id (some arev)) d2)
        = false := by
      rw [Bool.eq_false_iff]
      intro hany
      obtain ⟨d2, hmem2, hm2⟩ := List.any_eq_true.mp hany
      rw [matchesFilter_iff, write_filter_some] at hm2
      have hid2 : dGet d2 "_id" = some (Json.str id) :=
        hm2 ("_id", Json.str id) (by simp)
      exact hnone d2 hmem2 ((opt_json_beq_iff _ _).mpr hid2)
    have hdupf : store.any
        (fun d2 => dGet d2 "_id" == dGet (write_filter id (some arev)) "_id") = false := by
      rw [Bool.eq_false_iff]
      intro hany
      obtain ⟨d2, hmem2, hm2⟩ := List.any_eq_true.mp hany
      have he : dGet (write_filter id (some arev)) "_id" = some (Json.str id) := rfl
      rw [he] at hm2
      exact hnone d2 hmem2 hm2
    refine ⟨store ++ [write_doc fields id new_rev], ?_⟩
    simp [inner_new_item, chosen_id, hrev, hc, mongoDB, mongo_replace_one, hanyf, hdupf]

/-- Witness for C3 (amended), the S3 scenario: a body-asserted stale
revision against a stored generation-two document fails 409. -/
theorem c3_write_revision_witness :
    inner_new_item demoMd5 "g0" mongoDB [[("_id", Json.str "x"), ("_rev", Json.str "2-aa")]]
      (some "x") (Json.obj [("_rev", Json.str "1-zz"), ("n", Json.int 2)]) none =
      WRes.err 409 (Json.obj [("error", Json.str "conflict")]) :=
  (c3_write_revision demoMd5 "g0" [[("_id", Json.str "x"), ("_rev", Json.str "2-aa")]]
      "x" [("_rev", Json.str "1-zz"), ("n", Json.int 2)] none "1-zz"
      "2-0cc175b9c0f1b6a831c399e269772661" rfl rfl).2.2.1
    [("_id", Json.str "x"), ("_rev", Json.str "2-aa")] rfl
    (by
      intro hcon
      exact absurd (Json.str.inj (Option.some.inj hcon)) (by decide))
    (by simp [uniqueIds])

/-- Claim C4: when the driver replace-with-upsert call errors, the
gateway re-reads by _id; a missing document answers 404 not_found, an
existing one 409 conflict. -/
theorem c4_driver_error_reread (body_md5 : Json → String) (gen_id : String) (db : DB)
    (store : Store) (item : Option String) (fields : Doc) (rev_if_match : Option String)
    (new_rev : String) (e : String)
    (hc : compute_new_rev (body_md5 (Json.obj fields))
      (existing_rev (Json.obj fields) rev_if_match) = some new_rev)
    (herr : db.replace_one store
      (write_filter (chosen_id gen_id item (Json.obj fields))
        (existing_rev (Json.obj fields) rev_if_match))
      (write_doc fields (chosen_id gen_id item (Json.obj fields)) new_rev) = .error e) :
    (db.find_one store (chosen_id gen_id item (Json.obj fields)) = .ok none →
      inner_new_item body_md5 gen_id db store item (Json.obj fields) rev_if_match =
        .err 404 (Json.obj [("error", Json.str "not_found")])) ∧
    (∀ d, db.find_one store (chosen_id gen_id item (Json.obj fields)) = .ok (some d) →
      inner_new_item body_md5 gen_id db store item (Json.obj fields) rev_if_match =
        .err 409 (Json.obj [("error", Json.str "conflict")])) := by
  constructor
  · intro hfind
    simp [inner_new_item, hc, herr, check_conflict, hfind]
  · intro d hfind
    simp [inner_new_item, hc, herr, check_conflict, hfind]

/-- Witness for C4 at a failing driver: 404 on an empty collection,
409 when the document exists. -/
theorem c4_driver_error_reread_witness :
    (inner_new_item demoMd5 "g0" failDB [] (some "x")
      (Json.obj [("n", Json.int 1)]) none =
      .err 404 (Json.obj [("error", Json.str "not_found")])) ∧
    (inner_new_item demoMd5 "g0" failDB [[("_id", Json.str "x"), ("_rev", Json.str "1-aa")]]
      (some "x") (Json.obj [("n", Json.int 1)]) none =
      .err 409 (Json.obj [("error", Json.str "conflict")])) :=
  ⟨ (c4_driver_error_reread demoMd5 "g0" failDB [] (some "x") [("n", Json.int 1)] none
      "1-0cc175b9c0f1b6a831c399e269772661" "driver down" rfl rfl).1 rfl
  , (c4_driver_error_reread demoMd5 "g0" failDB
      [[("_id", Json.str "x"), ("_rev", Json.str "1-aa")]]
      (some "x") [("n", Json.int 1)] none
      "1-0cc175b9c0f1b6a831c399e269772661" "driver down" rfl rfl).2
      [("_id", Json.str "x"), ("_rev", Json.str "1-aa")] rfl ⟩

theorem dExtend_singleton (m : Doc) (k : String) (v : Json) :
    dExtend m [(k, v)] = dInsert m k v := rfl

theorem merge_filter_entry_keys (m m2 : Doc) (k : String) (v : Json)
    (h : merge_filter_entry m k v = .ok m2) :
    (dGet m2 k).isSome = true ∧
      ∀ k2, (dGet m k2).isSome = true → (dGet m2 k2).isSome = true := by
  by_cases hk : k = "$and"
  · subst hk
    simp only [merge_filter_entry, beq_self_eq_true, if_true, Except.ok.injEq] at h
    subst h
    rw [dExtend_singleton]
    constructor
    · rw [dGet_dInsert_self]
      rfl
    · intro k2 hk2
      exact isSome_dGet_dInsert _ _ _ _ hk2
  · have hb : (k == "$and") = false := by simpa using hk
    simp only [merge_filter_entry, hb, Bool.false_eq_true, if_false] at h
    cases hg : (dGet m k).getD (Json.obj []) with
    | null => simp [hg] at h
    | bool b => simp [hg] at h
    | int n => simp [hg] at h
    | str s => simp [hg] at h
    | arr xs => simp [hg] at h
    | obj ef =>
      cases v with
      | null => simp [hg] at h
      | bool b => simp [hg] at h
      | int n => simp [hg] at h
      | str s => simp [hg] at h
      | arr xs => simp [hg] at h
      | obj vf =>
        simp only [hg, Except.ok.injEq] at h
        subst h
        constructor
        · rw [dGet_dInsert_self]
          rfl
        · intro k2 hk2
          exact isSome_dGet_dInsert _ _ _ _ hk2

theorem merge_filter_keys :
    ∀ (fl : Doc) (m m2 : Doc), merge_filter m fl = .ok m2 →
    (∀ kv ∈ fl, (dGet m2 kv.1).isSome = true) ∧
      (∀ k2, (dGet m k2).isSome = true → (dGet m2 k2).isSome = true)
  | [], m, m2, h => by
    cases h
    exact ⟨by simp, fun _ hk => hk⟩
  | kv :: rest, m, m2, h => by
    simp only [merge_filter] at h
    cases he : merge_filter_entry m kv.1 kv.2 with
    | error e =>
      rw [he] at h
      exact Except.noConfusion h
    | ok m1 =>
      rw [he] at h
      obtain ⟨h1, h2⟩ := merge_filter_entry_keys m m1 kv.1 kv.2 he
      obtain ⟨h3, h4⟩ := merge_filter_keys rest m1 m2 h
      refine ⟨?_, fun k2 hk => h4 k2 (h2 k2 hk)⟩
      intro kv2 hmem
      rcases List.mem_cons.mp hmem with rfl | h5
      · exact h4 kv2.1 h1
      · exact h3 kv2 h5

/-- Claim C6: with a non-empty synthesized filter, when the pipeline
stage at filter_insert_index is a $match document the filter keys are
merged into that same stage and no stage is inserted (the pipeline
length before paging is unchanged); otherwise a fresh $match stage is
inserted at the index clamped to the pipeline length. -/
theorem c6_filter_splice (v : DesignView) (pipeline : List Doc) (filter : Doc)
    (hne : filter ≠ []) :
    (∀ stage m m2, pipeline.get? v.filter_insert_index = some stage →
      dGet stage "$match" = some (Json.obj m) → merge_filter m filter = .ok m2 →
      splice_filter v pipeline filter =
        .ok (pipeline.set v.filter_insert_index (dInsert stage "$match" (Json.obj m2))) ∧
      (pipeline.set v.filter_insert_index
        (dInsert stage "$match" (Json.obj m2))).length = pipeline.length ∧
      ∀ kv ∈ filter, (dGet m2 kv.1).isSome = true) ∧
    ((∀ stage, pipeline.get? v.filter_insert_index = some stage →
        dGet stage "$match" = none) →
      splice_filter v pipeline filter =
        .ok (insertAt (min v.filter_insert_index pipeline.length)
          [("$match", Json.obj filter)] pipeline)) := by
  have hfe : filter.isEmpty = false := by
    cases filter with
    | nil => exact absurd rfl hne
    | cons a b => rfl
  constructor
  · intro stage m m2 hget hmatch hmerge
    have hget2 : pipeline[v.filter_insert_index]? = some stage := by simpa using hget
    refine ⟨?_, List.length_set _ _ _, (merge_filter_keys filter m m2 hmerge).1⟩
    simp [splice_filter, hfe, hget2, hmatch, hmerge]
  · intro hnom
    cases hget : pipeline.get? v.filter_insert_index with
    | none =>
      have hget2 : pipeline[v.filter_insert_index]? = none := by simpa using hget
      simp [splice_filter, hfe, hget2]
    | some stage =>
      have h0 := hnom stage hget
      have hget2 : pipeline[v.filter_insert_index]? = some stage := by simpa using hget
      simp [splice_filter, hfe, hget2, h0]

/-- Witness for C6: merging into an existing $match keeps the pipeline
at one stage with both keys inside it, while a $sort-led pipeline gets
a fresh $match inserted in front. -/
theorem c6_filter_splice_witness :
    splice_filter ⟨[], none, [], [], 0, none⟩
      [[("$match", Json.obj [("a", Json.obj [("$gte", Json.int 1)])])]]
      [("b", Json.obj [("$eq", Json.int 2)])] =
      .ok [[("$match", Json.obj [("a", Json.obj [("$gte", Json.int 1)]),
        ("b", Json.obj [("$eq", Json.int 2)])])]] ∧
    splice_filter ⟨[], none, [], [], 0, none⟩
      [[("$sort", Json.obj [("a", Json.int 1)])]]
      [("b", Json.obj [("$eq", Json.int 2)])] =
      .ok [[("$match", Json.obj [("b", Json.obj [("$eq", Json.int 2)])])],
        [("$sort", Json.obj [("a", Json.int 1)])]] :=
  ⟨ ((c6_filter_splice ⟨[], none, [], [], 0, none⟩
      [[("$match", Json.obj [("a", Json.obj [("$gte", Json.int 1)])])]]
      [("b", Json.obj [("$eq", Json.int 2)])] (by simp)).1
      [("$match", Json.obj [("a", Json.obj [("$gte", Json.int 1)])])]
      [("a", Json.obj [("$gte", Json.int 1)])]
      [("a", Json.obj [("$gte", Json.int 1)]), ("b", Json.obj [("$eq", Json.int 2)])]
      rfl rfl rfl).1
  , (c6_filter_splice ⟨[], none, [], [], 0, none⟩
      [[("$sort", Json.obj [("a", Json.int 1)])]]
      [("b", Json.obj [("$eq", Json.int 2)])] (by simp)).2
      (fun stage h => by cases h; rfl) ⟩

theorem neg_sort_fields_cons (g : String) (rest : List String) (s : Doc) :
    neg_sort_fields (g :: rest) s = neg_sort_fields rest (neg_sort_step s g) := rfl

theorem dGet_neg_sort_step_of_ne (s : Doc) (g f : String) (h : f ≠ g) :
    dGet (neg_sort_step s g) f = dGet s f := by
  unfold neg_sort_step
  split
  · exact dGet_dInsert_of_ne s g f _ h
  · rfl

theorem dGet_neg_sort_step_self (s : Doc) (g : String) (dir : Int)
    (h : dGet s g = some (Json.int dir)) :
    dGet (neg_sort_step s g) g = some (Json.int (-dir)) := by
  unfold neg_sort_step
  rw [h]
  exact dGet_dInsert_self s g _

theorem neg_sort_fields_not_mem (fields : List String) (s : Doc) (f : String)
    (h : f ∉ fields) : dGet (neg_sort_fields fields s) f = dGet s f := by
  induction fields generalizing s with
  | nil => rfl
  | cons g rest ih =>
    have hfg : f ≠ g := fun he => h (he ▸ List.mem_cons_self g rest)
    rw [neg_sort_fields_cons, ih _ (fun hm => h (List.mem_cons_of_mem g hm)),
      dGet_neg_sort_step_of_ne s g f hfg]

theorem neg_sort_fields_at (fields : List String) (s : Doc) (f : String) (dir : Int)
    (hnodup : fields.Nodup) (hmem : f ∈ fields) (hget : dGet s f = some (Json.int dir)) :
    dGet (neg_sort_fields fields s) f = some (Json.int (-dir)) := by
  induction fields generalizing s with
  | nil => cases hmem
  | cons g rest ih =>
    rw [neg_sort_fields_cons]
    rcases List.mem_cons.mp hmem with rfl | hr
    · rw [neg_sort_fields_not_mem rest _ f (List.nodup_cons.mp hnodup).1]
      exact dGet_neg_sort_step_self s f dir hget
    · have hfg : f ≠ g := by
        rintro rfl
        exact (List.nodup_cons.mp hnodup).1 hr
      have hstep : dGet (neg_sort_step s g) f = some (Json.int dir) := by
        rw [dGet_neg_sort_step_of_ne s g f hfg]
        exact hget
      exact ih _ (List.nodup_cons.mp hnodup).2 hr hstep

/-- Claim C8: under descending=true every $sort stage has each field
named in sort_fields (match_fields when absent) with an integer
direction negated and _id -1 appended to the sort document, while
non-sort stages and the stage count are untouched. -/
theorem c8_descending_sort (v : DesignView) (pipeline : List Doc) :
    ((apply_descending v pipeline).length = pipeline.length) ∧
    (∀ i stage, pipeline.get? i = some stage →
      ((dGet stage "$sort" = none → (apply_descending v pipeline).get? i = some stage) ∧
       (∀ sortd, dGet stage "$sort" = some (Json.obj sortd) →
         (apply_descending v pipeline).get? i = some (dInsert stage "$sort"
           (Json.obj (dInsert (neg_sort_fields (v.sort_fields.getD v.match_fields) sortd)
             "_id" (Json.int (-1))))) ∧
         dGet (dInsert (neg_sort_fields (v.sort_fields.getD v.match_fields) sortd)
           "_id" (Json.int (-1))) "_id" = some (Json.int (-1)) ∧
         ((v.sort_fields.getD v.match_fields).Nodup →
           ∀ f ∈ v.sort_fields.getD v.match_fields, f ≠ "_id" →
           ∀ dir : Int, dGet sortd f = some (Json.int dir) →
           dGet (dInsert (neg_sort_fields (v.sort_fields.getD v.match_fields) sortd)
             "_id" (Json.int (-1))) f = some (Json.int (-dir)))))) := by
  constructor
  · simp [apply_descending]
  · intro i stage hget
    have hget2 : pipeline[i]? = some stage := by simpa using hget
    constructor
    · intro hnone
      simp [apply_descending, List.getElem?_map, hget2, descending_stage, hnone]
    · intro sortd hsort
      refine ⟨?_, ?_, ?_⟩
      · simp [apply_descending, List.getElem?_map, hget2, descending_stage, hsort,
          dExtend_singleton]
      · rw [dGet_dInsert_self]
      · intro hnodup f hf hfid dir hdir
        rw [dGet_dInsert_of_ne _ _ _ _ hfid]
        exact neg_sort_fields_at _ _ _ _ hnodup hf hdir

/-- Witness for C8, the S4 scenario: a view on the date field with an
ascending date sort queried descending rewrites the sort stage to
date -1, _id -1, also through the full pipeline builder. -/
theorem c8_descending_sort_witness :
    (apply_descending ⟨["date"], none, [], [[("$sort", Json.obj [("date", Json.int 1)])]],
      0, none⟩ [[("$sort", Json.obj [("date", Json.int 1)])]]).get? 0 =
      some [("$sort", Json.obj [("date", Json.int (-1)), ("_id", Json.int (-1))])] ∧
    create_automated_pipeline
      ⟨["date"], none, [], [[("$sort", Json.obj [("date", Json.int 1)])]], 0, none⟩
      ⟨false, false, 0, true, none, 0, [], [], none, none, []⟩ =
      .ok [[("$match", Json.obj [("date", Json.obj [("$eq", Json.null)])])],
        [("$sort", Json.obj [("date", Json.int (-1)), ("_id", Json.int (-1))])],
        [("$skip", Json.int 0)]] :=
  ⟨ (((c8_descending_sort
      ⟨["date"], none, [], [[("$sort", Json.obj [("date", Json.int 1)])]], 0, none⟩
      [[("$sort", Json.obj [("date", Json.int 1)])]]).2 0
      [("$sort", Json.obj [("date", Json.int 1)])] rfl).2
      [("date", Json.int 1)] rfl).1
  , rfl ⟩

theorem inner_delete_item_ne_crash (db : DB) (store : Store) (item : String)
    (pr im : Option String) : inner_delete_item db store item pr im ≠ WRes.crash := by
  intro hcon
  simp only [inner_delete_item] at hcon
  repeat' split at hcon
  all_goals exact WRes.noConfusion hcon

theorem bulk_item_total (f : Json → String) (g : String) (db : DB) (store : Store)
    (d : Json) (h : bulkItemOk d = true) :
    ∃ store2 r, bulk_item f g db store d = some (store2, r) ∧
      (okShape r ∨ conflictShape r) := by
  by_cases hd : bulk_deleted d = true
  · cases hrev : jGetStr d "_rev" with
    | none =>
      refine ⟨store, _, ?_, Or.inr ⟨((jGetStr d "_id").map Json.str).getD Json.null, rfl⟩⟩
      simp [bulk_item, hd, hrev]
    | some rv =>
      simp only [bulkItemOk, hd, if_true, hrev] at h
      obtain ⟨i, hi⟩ := Option.isSome_iff_exists.mp h
      cases hres : inner_delete_item db store i (some rv) none with
      | crash => exact absurd hres (inner_delete_item_ne_crash db store i (some rv) none)
      | ok store2 st body =>
        refine ⟨store2, _, ?_, Or.inl ⟨i, rv, rfl⟩⟩
        simp [bulk_item, hd, hrev, hi, hres]
      | err st body =>
        refine ⟨store, _, ?_, Or.inr ⟨Json.str i, rfl⟩⟩
        simp [bulk_item, hd, hrev, hi, hres]
  · have hdf : bulk_deleted d = false := by simpa using hd
    cases d with
    | null => simp [bulkItemOk, hdf] at h
    | bool b => simp [bulkItemOk, hdf] at h
    | int n => simp [bulkItemOk, hdf] at h
    | str s => simp [bulkItemOk, hdf] at h
    | arr xs => simp [bulkItemOk, hdf] at h
    | obj dfields =>
      have hcomp : ∃ nr, compute_new_rev (f (Json.obj dfields))
          (existing_rev (Json.obj dfields) none) = some nr := by
        cases hrev : jGetStr (Json.obj dfields) "_rev" with
        | none =>
          exact ⟨"1-" ++ f (Json.obj dfields),
            by simp [compute_new_rev, existing_rev, hrev]⟩
        | some rv =>
          simp only [bulkItemOk, hdf, Bool.false_eq_true, if_false, hrev] at h
          cases hp : parse_u64 (before_dash rv) with
          | none => rw [hp] at h; exact absurd h (by simp)
          | some n =>
            rw [hp] at h
            have hb : n + 1 < 2 ^ 64 := of_decide_eq_true h
            refine ⟨toString (n + 1) ++ "-" ++ f (Json.obj dfields), ?_⟩
            simp [compute_new_rev, existing_rev, hrev, hp]
            omega
      obtain ⟨nr, hnr⟩ := hcomp
      cases hrep : db.replace_one store
          (write_filter (chosen_id g (jGetStr (Json.obj dfields) "_id") (Json.obj dfields))
            (existing_rev (Json.obj dfields) none))
          (write_doc dfields
            (chosen_id g (jGetStr (Json.obj dfields) "_id") (Json.obj dfields)) nr) with
      | ok store2 =>
        refine ⟨store2, _, ?_,
          Or.inl ⟨chosen_id g (jGetStr (Json.obj dfields) "_id") (Json.obj dfields),
            nr, rfl⟩⟩
        simp [bulk_item, hdf, inner_new_item, hnr, hrep]
      | error e =>
        cases hcc : check_conflict db store
            (chosen_id g (jGetStr (Json.obj dfields) "_id") (Json.obj dfields)) with
        | ok sb =>
          obtain ⟨st2, bd2⟩ := sb
          refine ⟨store, _, ?_,
            Or.inr ⟨((jGetStr (Json.obj dfields) "_id").map Json.str).getD Json.null, rfl⟩⟩
          simp [bulk_item, hdf, inner_new_item, hnr, hrep, hcc]
        | error e2 =>
          refine ⟨store, _, ?_,
            Or.inr ⟨((jGetStr (Json.obj dfields) "_id").map Json.str).getD Json.null, rfl⟩⟩
          simp [bulk_item, hdf, inner_new_item, hnr, hrep, hcc]

theorem bulk_docs_loop_total (f : Json → String) (gs : Nat → String) (db : DB) :
    ∀ (docs : List Json) (store : Store) (i : Nat),
    (∀ d ∈ docs, bulkItemOk d = true) →
    ∃ store2 resps, bulk_docs_loop f gs db store i docs = some (store2, resps) ∧
      resps.length = docs.length ∧ ∀ r ∈ resps, okShape r ∨ conflictShape r
  | [], store, _, _ => ⟨store, [], rfl, rfl, by simp⟩
  | doc :: rest, store, i, hall => by
    obtain ⟨store1, r, hitem, hshape⟩ :=
      bulk_item_total f (gs i) db store doc (hall doc (by simp))
    obtain ⟨store2, resps, hloop, hlen, hshapes⟩ :=
      bulk_docs_loop_total f gs db rest store1 (i + 1) (fun d hm => hall d (by simp [hm]))
    refine ⟨store2, r :: resps, ?_, by simp [hlen], ?_⟩
    · simp [bulk_docs_loop, hitem, hloop]
    · intro r2 hr2
      rcases List.mem_cons.mp hr2 with rfl | hm
      · exact hshape
      · exact hshapes r2 hm

/-- Counterexample to C5 as stated: a docs array holding one deletion
item with a revision but no _id makes the handler panic at the id
unwrap, so no 201 response with one element is produced. -/
theorem c5_bulk_crash_counterexample :
    bulk_docs demoMd5 demoGenId mongoDB []
      [Json.obj [("_deleted", Json.bool true), ("_rev", Json.str "1-aa")]] = none := rfl

/-- Claim C5 (amended): for a _bulk_docs body of well-formed items
(each deletion item carrying a string _rev also carries a string _id,
every other item is a JSON object whose _rev generation, when present,
parses and increments as u64) the response is 201 with exactly one
element per item in request order, each element the per-item success
body or the conflict object, and a failing item does not stop the
processing of subsequent items. -/
theorem c5_bulk_isolation (f : Json → String) (gs : Nat → String) (db : DB)
    (store : Store) (docs : List Json)
    (hwf : ∀ d ∈ docs, bulkItemOk d = true) :
    ∃ store2 resps, bulk_docs f gs db store docs = some (store2, 201, resps) ∧
      resps.length = docs.length ∧ ∀ r ∈ resps, okShape r ∨ conflictShape r := by
  obtain ⟨store2, resps, hloop, hlen, hsh⟩ := bulk_docs_loop_total f gs db docs store 0 hwf
  exact ⟨store2, resps, by simp [bulk_docs, hloop], hlen, hsh⟩

/-- Witness for C5 (amended): a create, a conflicting stale update and
a delete of the same document; the middle failure is reported as a
conflict object and does not halt the delete that follows. -/
theorem c5_bulk_isolation_witness :
    ∃ store2 resps, bulk_docs demoMd5 demoGenId mongoDB []
      [ Json.obj [("_id", Json.str "a"), ("n", Json.int 1)]
      , Json.obj [("_id", Json.str "a"), ("_rev", Json.str "9-zz"), ("n", Json.int 2)]
      , Json.obj [("_id", Json.str "a"), ("_deleted", Json.bool true),
          ("_rev", Json.str "1-0cc175b9c0f1b6a831c399e269772661")] ] =
      some (store2, 201, resps) ∧
      resps.length = 3 ∧ ∀ r ∈ resps, okShape r ∨ conflictShape r :=
  c5_bulk_isolation demoMd5 demoGenId mongoDB []
    [ Json.obj [("_id", Json.str "a"), ("n", Json.int 1)]
    , Json.obj [("_id", Json.str "a"), ("_rev", Json.str "9-zz"), ("n", Json.int 2)]
    , Json.obj [("_id", Json.str "a"), ("_deleted", Json.bool true),
        ("_rev", Json.str "1-0cc175b9c0f1b6a831c399e269772661")] ]
    (by
      intro d hd
      fin_cases hd <;> rfl)

end CouchApi
